import Mathlib

/-!
Verification of the rizma-heygen turn-taking and session-protocol engine.

The definitions below are a shallow embedding of the frontend source:
  - transcript aggregation: the `AvatarView` component
    (frontend/src/components — `sendTranscript`, the `USER_TRANSCRIPTION`
    handler, the `AVATAR_SPEAK_STARTED` / `AVATAR_SPEAK_ENDED` handlers,
    the push-to-talk effect, the `speak` queue);
  - the session channel: frontend/src/hooks/useWebSocket.ts;
  - the interview phase machine: `InterviewPhase` from
    frontend/src/types/interview.ts, with the backend orchestrator
    modelled from the specification (its Python source is not part of
    the frontend tree).

Timestamps are naturals (milliseconds); JavaScript timers are modelled
as explicit due-times stored in the state, fired by a scheduler before
each later event is handled, which matches the single-threaded
JavaScript event loop.
-/

namespace Rizma

/-! String primitives.  JavaScript string methods are modelled on the
character list underlying a Lean `String`; all texts involved are ASCII,
where these agree with the JS semantics character for character. -/

/-- Model of JS `String.prototype.toLowerCase` (ASCII fragment). -/
def strToLower (s : String) : String := ⟨s.data.map Char.toLower⟩

/-- Model of JS `String.prototype.substring(0, n)`. -/
def strTake (s : String) (n : Nat) : String := ⟨s.data.take n⟩

/-- Model of JS `String.prototype.startsWith`. -/
def strStartsWith (s p : String) : Bool := List.isPrefixOf p.data s.data

/-- Model of JS `String.prototype.trim`: strip whitespace from both ends. -/
def strTrim (s : String) : String :=
  ⟨((s.data.dropWhile Char.isWhitespace).reverse.dropWhile Char.isWhitespace).reverse⟩

/-! Transcript aggregation (AvatarView).

The mutable refs of the component become the fields of `AvatarState`:
`isSpeakingRef`, `currentTranscriptRef`, `lastSentTranscriptRef`,
`pttReleasedRef`, `sendTimeoutRef`, `lastTranscriptTimeRef`,
`pushToTalkEnabledRef`.  The anonymous 500 ms timeouts armed by the
`AVATAR_SPEAK_ENDED` handler are kept as a list of due-times
(`pendingClears`), since the code never stores or cancels them. -/

/-- A pending `sendTranscript` timeout: its due time, and whether the
callback clears `pttReleasedRef` before sending (the callbacks armed on
push-to-talk release and on a transcript arriving after release do;
the auto-mode and defer-while-speaking callbacks do not). -/
structure SendTimer where
  due : Nat
  clearsPtt : Bool
deriving DecidableEq

structure AvatarState where
  isSpeaking : Bool
  currentTranscript : String
  lastSentTranscript : String
  pttReleased : Bool
  sendTimeout : Option SendTimer
  pendingClears : List Nat
  lastTranscriptTime : Nat
  pushToTalkEnabled : Bool
deriving DecidableEq

/-- Initial ref values of the component. -/
def initAvatar (ptt : Bool) : AvatarState :=
  { isSpeaking := false
    currentTranscript := ""
    lastSentTranscript := ""
    pttReleased := false
    sendTimeout := none
    pendingClears := []
    lastTranscriptTime := 0
    pushToTalkEnabled := ptt }

/-- The push-to-talk merge heuristic of the `USER_TRANSCRIPTION` handler:
if the buffer is non-empty and the new text does not start with the
first 20 characters of the buffer (case-insensitively), append it as a
new segment; otherwise keep the longer of the two. -/
def mergeTranscript (current text : String) : String :=
  if current ≠ "" ∧ strStartsWith (strToLower text) (strTake (strToLower current) 20) = false then
    current ++ " " ++ text
  else if current.length < text.length then text else current

/-- The `USER_TRANSCRIPTION` handler.  `now` is `Date.now()` at the event. -/
def userTranscription (now : Nat) (text : String) (s : AvatarState) : AvatarState :=
  if s.isSpeaking = true then s
  else if text = "" ∨ (strTrim text).length < 2 then s
  else if s.pushToTalkEnabled = true then
    let s1 := { s with currentTranscript := mergeTranscript s.currentTranscript text }
    if s1.pttReleased = true then { s1 with sendTimeout := some ⟨now + 2000, true⟩ } else s1
  else
    let s1 := { s with currentTranscript := text }
    let s2 := if now - s1.lastTranscriptTime > 5000 then { s1 with lastSentTranscript := "" } else s1
    { s2 with lastTranscriptTime := now, sendTimeout := some ⟨now + 3000, false⟩ }

/-- The `sendTranscript` callback: trim the buffer; discard empty or
too-short buffers; while the avatar speaks, re-arm the timeout 1000 ms
out; suppress a duplicate of the last sent text; otherwise emit the
trimmed buffer (the second component) and record it as last sent. -/
def sendTranscript (now : Nat) (s : AvatarState) : AvatarState × Option String :=
  let transcript := strTrim s.currentTranscript
  if transcript = "" ∨ transcript.length < 3 then
    ({ s with currentTranscript := "" }, none)
  else if s.isSpeaking = true then
    ({ s with sendTimeout := some ⟨now + 1000, false⟩ }, none)
  else if transcript = s.lastSentTranscript then
    ({ s with currentTranscript := "" }, none)
  else
    ({ s with lastSentTranscript := transcript, currentTranscript := "" }, some transcript)

/-- The `AVATAR_SPEAK_STARTED` handler. -/
def avatarSpeakStarted (s : AvatarState) : AvatarState :=
  { s with isSpeaking := true }

/-- The `AVATAR_SPEAK_ENDED` handler: arm an anonymous 500 ms timeout
that will clear `isSpeaking`; the flag itself stays set for now. -/
def avatarSpeakEnded (now : Nat) (s : AvatarState) : AvatarState :=
  { s with pendingClears := s.pendingClears ++ [now + 500] }

/-- The push-to-talk effect, transition `false → true`: reset the
buffer, the last-sent marker and the release flag, cancel the timeout. -/
def pttPressed (s : AvatarState) : AvatarState :=
  { s with currentTranscript := ""
           lastSentTranscript := ""
           pttReleased := false
           sendTimeout := none }

/-- The push-to-talk effect, transition `true → false`: mark released
and arm the 2000 ms send timeout (clearing any previous one). -/
def pttLetGo (now : Nat) (s : AvatarState) : AvatarState :=
  { s with pttReleased := true, sendTimeout := some ⟨now + 2000, true⟩ }

/-! The JavaScript event loop: timers fire in due-time order as the
clock passes their due time, interleaved with incoming SDK events. -/

/-- A timer of the component that has come due: either one of the
anonymous 500 ms `isSpeaking`-clearing timeouts, or the stored
`sendTimeoutRef`. -/
inductive DueTimer where
  | clearSpeak (due : Nat)
  | sendT (tm : SendTimer)
deriving DecidableEq

/-- The earliest timer due at or before time `t`, preferring the
`isSpeaking`-clearing timeout on a tie (it was armed first in the
scenarios considered; no trace below produces a tie). -/
def nextDue (s : AvatarState) (t : Nat) : Option DueTimer :=
  let c? := (s.pendingClears.filter (fun c => decide (c ≤ t))).min?
  let d? := match s.sendTimeout with
    | some tm => if tm.due ≤ t then some tm else none
    | none => none
  match c?, d? with
  | none, none => none
  | some c, none => some (DueTimer.clearSpeak c)
  | none, some tm => some (DueTimer.sendT tm)
  | some c, some tm => if c ≤ tm.due then some (DueTimer.clearSpeak c) else some (DueTimer.sendT tm)

/-- Fire all timers due at or before `t`, collecting any transcripts
emitted by `sendTranscript` callbacks.  The fuel bounds the number of
firings; callers supply enough for the trace at hand. -/
def fireTimers : Nat → Nat → AvatarState → AvatarState × List String
  | 0, _, s => (s, [])
  | fuel + 1, t, s =>
    match nextDue s t with
    | none => (s, [])
    | some (DueTimer.clearSpeak c) =>
      fireTimers fuel t { s with pendingClears := s.pendingClears.erase c, isSpeaking := false }
    | some (DueTimer.sendT tm) =>
      let base := { s with sendTimeout := none
                           pttReleased := if tm.clearsPtt then false else s.pttReleased }
      let res := sendTranscript tm.due base
      let rest := fireTimers fuel t res.1
      (rest.1, res.2.toList ++ rest.2)

/-- External events reaching the component: an SDK transcription, the
avatar speak start/end events, and the push-to-talk prop transitions. -/
inductive AvatarEvent where
  | userT (text : String)
  | speakStarted
  | speakEnded
  | pttDown
  | pttUp
deriving DecidableEq

def handleEvent (t : Nat) (e : AvatarEvent) (s : AvatarState) : AvatarState :=
  match e with
  | AvatarEvent.userT text => userTranscription t text s
  | AvatarEvent.speakStarted => avatarSpeakStarted s
  | AvatarEvent.speakEnded => avatarSpeakEnded t s
  | AvatarEvent.pttDown => pttPressed s
  | AvatarEvent.pttUp => pttLetGo t s

/-- Fuel sufficient for all timers due by time `t`: each firing either
consumes a pending clear or pushes the send timeout at least 1000 ms
further out. -/
def fuelFor (s : AvatarState) (t : Nat) : Nat :=
  s.pendingClears.length + t / 1000 + 2

/-- Run a time-ordered trace of events: before handling each event, fire
every timer already due. -/
def runTrace : AvatarState → List (Nat × AvatarEvent) → AvatarState × List String
  | s, [] => (s, [])
  | s, (t, e) :: rest =>
    let fired := fireTimers (fuelFor s t) t s
    let s1 := handleEvent t e fired.1
    let res := runTrace s1 rest
    (res.1, fired.2 ++ res.2)

/-- Run a trace, then let the clock advance to `tEnd` so that remaining
timers fire. -/
def runSession (s : AvatarState) (es : List (Nat × AvatarEvent)) (tEnd : Nat) :
    AvatarState × List String :=
  let r := runTrace s es
  let f := fireTimers (fuelFor r.1 tEnd) tEnd r.1
  (f.1, r.2 ++ f.2)

/-- Whether the avatar is audibly speaking at time `t` according to the
ground truth of the trace: the most recent speak start/end event
strictly before `t` is a start. -/
def audiblySpeakingAt (es : List (Nat × AvatarEvent)) (t : Nat) : Bool :=
  let speech := es.filter fun p =>
    decide (p.1 < t) && (p.2 == AvatarEvent.speakStarted || p.2 == AvatarEvent.speakEnded)
  match speech.getLast? with
  | some p => p.2 == AvatarEvent.speakStarted
  | none => false

/-! The session channel (frontend/src/hooks/useWebSocket.ts).

The hook's refs and state become `ChannelState`: `wsRef` (the current
transport, if any), the `isConnected` state, and `reconnectTimeoutRef`
(the due time of the pending auto-reconnect, if any).  `sessionId` is
the hook's current session identifier input and `url` its base URL. -/

inductive WsReadyState where
  | connecting
  | wsOpen
  | closing
  | wsClosed
deriving DecidableEq

/-- One underlying WebSocket: its URL, ready state, and the frames it
has transmitted, in order. -/
structure WsConn where
  url : String
  readyState : WsReadyState
  sentFrames : List String
deriving DecidableEq

/-- A pending auto-reconnect: its due time and the session identifier
captured by the `onclose` closure that scheduled it.  The callback
`if (sessionId) connect()` takes no identifier of its own; `sessionId`
and `connect` are the closure values of the render that created the
socket and installed its handlers, so later values of the hook's
identifier are not read by it. -/
structure ReconnectTimer where
  due : Nat
  capturedSessionId : Option String
deriving DecidableEq

structure ChannelState where
  url : String
  sessionId : Option String
  ws : Option WsConn
  isConnected : Bool
  reconnectTimeout : Option ReconnectTimer
deriving DecidableEq

/-- Notifications surfaced to the caller through the hook's callbacks. -/
inductive ChannelNotice where
  | connected
  | disconnected
deriving DecidableEq

/-- Whether the current transport is open — the condition `send` and
`connect` test (`wsRef.current?.readyState === WebSocket.OPEN`). -/
def channelOpen (s : ChannelState) : Bool :=
  match s.ws with
  | some w => w.readyState == WsReadyState.wsOpen
  | none => false

/-- The `connect` closure of a render whose `sessionId` was `sid?`: a
no-op when the current transport (read through the shared `wsRef`) is
already open or when that identifier is absent; otherwise open a fresh
transport scoped to it. -/
def connectWith (sid? : Option String) (s : ChannelState) : ChannelState :=
  if channelOpen s = true then s
  else
    match sid? with
    | none => s
    | some sid =>
      { s with ws := some ⟨s.url ++ "/" ++ sid, WsReadyState.connecting, []⟩ }

/-- `connect()` as invoked by the caller in the current render: the
closure over the hook's current session identifier. -/
def connect (s : ChannelState) : ChannelState :=
  connectWith s.sessionId s

/-- The transport's `onopen` callback: the socket is now open, the hook
records connectedness and notifies the caller. -/
def onOpen (s : ChannelState) : ChannelState × List ChannelNotice :=
  ({ s with isConnected := true
            ws := s.ws.map fun w => { w with readyState := WsReadyState.wsOpen } },
   [ChannelNotice.connected])

/-- The transport's `onclose` callback: record disconnectedness, notify
the caller, and schedule the auto-reconnect 3000 ms out.  `captured` is
the `sessionId` closure value of the render that created this socket
and installed the handler; the scheduled `if (sessionId) connect()`
reads it, not the hook's later identifier. -/
def onClose (t : Nat) (captured : Option String) (s : ChannelState) :
    ChannelState × List ChannelNotice :=
  ({ s with isConnected := false, reconnectTimeout := some ⟨t + 3000, captured⟩ },
   [ChannelNotice.disconnected])

/-- Fire the pending reconnect timer if due at `t`: the callback checks
its captured session identifier and calls the captured `connect`
closure, which uses the same captured identifier. -/
def fireReconnect (t : Nat) (s : ChannelState) : ChannelState :=
  match s.reconnectTimeout with
  | some tm =>
    if tm.due ≤ t then
      match tm.capturedSessionId with
      | some sid => connectWith (some sid) { s with reconnectTimeout := none }
      | none => { s with reconnectTimeout := none }
    else s
  | none => s

/-- `disconnect()`: clear the pending reconnect timer, close and drop
the transport, record disconnectedness.  Nothing else is touched. -/
def disconnect (s : ChannelState) : ChannelState :=
  { s with reconnectTimeout := none, ws := none, isConnected := false }

inductive SendResult where
  | sent
  | droppedNotConnected
deriving DecidableEq

/-- `send(message)`: transmit on an open transport; otherwise log a
warning and drop the message. -/
def send (msg : String) (s : ChannelState) : ChannelState × SendResult :=
  match s.ws with
  | some w =>
    if w.readyState == WsReadyState.wsOpen then
      ({ s with ws := some { w with sentFrames := w.sentFrames ++ [msg] } }, SendResult.sent)
    else (s, SendResult.droppedNotConnected)
  | none => (s, SendResult.droppedNotConnected)

/-! The avatar speak queue (AvatarView: `speak`, the
`SESSION_STREAM_READY` handler and `pendingSpeakRef`). -/

structure SpeakState where
  hasSession : Bool
  isReady : Bool
  pendingSpeak : List String
deriving DecidableEq

/-- The `speak` method: queue the text while the session object or the
stream is not ready, otherwise repeat it immediately (second
component). -/
def speak (text : String) (s : SpeakState) : SpeakState × Option String :=
  if s.hasSession = false then
    ({ s with pendingSpeak := s.pendingSpeak ++ [text] }, none)
  else if s.isReady = false then
    ({ s with pendingSpeak := s.pendingSpeak ++ [text] }, none)
  else (s, some text)

/-- The drain loop of the `SESSION_STREAM_READY` handler: shift texts
off the queue, repeating each one that is truthy (non-empty). -/
def flushPending : List String → List String
  | [] => []
  | t :: rest => if t = "" then flushPending rest else t :: flushPending rest

/-- The `SESSION_STREAM_READY` handler: mark the stream ready and drain
the queue; the second component lists the texts actually spoken. -/
def onStreamReady (s : SpeakState) : SpeakState × List String :=
  ({ s with isReady := true, pendingSpeak := [] }, flushPending s.pendingSpeak)

/-! The interview phase machine.  The enumeration is
`InterviewPhase` from frontend/src/types/interview.ts. -/

inductive InterviewPhase where
  | IDLE
  | GREETING
  | TECHNICAL
  | EVALUATION
  | COMPLETED
deriving DecidableEq

/-- The phase order of the data model. -/
def phaseOrder : List InterviewPhase :=
  [InterviewPhase.IDLE, InterviewPhase.GREETING, InterviewPhase.TECHNICAL,
   InterviewPhase.EVALUATION, InterviewPhase.COMPLETED]

/-- The successor in the phase order (COMPLETED is terminal). -/
def nextPhase : InterviewPhase → InterviewPhase
  | InterviewPhase.IDLE => InterviewPhase.GREETING
  | InterviewPhase.GREETING => InterviewPhase.TECHNICAL
  | InterviewPhase.TECHNICAL => InterviewPhase.EVALUATION
  | InterviewPhase.EVALUATION => InterviewPhase.COMPLETED
  | InterviewPhase.COMPLETED => InterviewPhase.COMPLETED

/-- The remaining phases after `p` in the phase order. -/
def phasesAfter : InterviewPhase → List InterviewPhase
  | InterviewPhase.IDLE =>
    [InterviewPhase.GREETING, InterviewPhase.TECHNICAL,
     InterviewPhase.EVALUATION, InterviewPhase.COMPLETED]
  | InterviewPhase.GREETING =>
    [InterviewPhase.TECHNICAL, InterviewPhase.EVALUATION, InterviewPhase.COMPLETED]
  | InterviewPhase.TECHNICAL => [InterviewPhase.EVALUATION, InterviewPhase.COMPLETED]
  | InterviewPhase.EVALUATION => [InterviewPhase.COMPLETED]
  | InterviewPhase.COMPLETED => []

/-- Modelled from the spec: the backend PhaseOrchestrator
(`backend/app/services/orchestrator.py`, referenced by the repository
docs, is not part of the frontend tree).  Per the spec:
`IDLE -[session start]-> GREETING -[3 exchanges or explicit advance]->
TECHNICAL -[10 exchanges]-> EVALUATION -[scoring complete]-> COMPLETED`;
candidate turns increment the current phase's exchange counter and
reaching the cap auto-advances; input is rejected during EVALUATION;
COMPLETED is terminal; out-of-order or duplicate advance signals are
no-ops. -/
inductive OrchEvent where
  | sessionStart
  | candidateTurn
  | advanceSignal
  | scoringComplete
deriving DecidableEq

def greetingCap : Nat := 3

def technicalCap : Nat := 10

structure OrchState where
  phase : InterviewPhase
  exchanges : Nat
deriving DecidableEq

/-- Modelled from the spec: one orchestrator step (see `OrchEvent`). -/
def orchStep (s : OrchState) (e : OrchEvent) : OrchState :=
  match e with
  | OrchEvent.sessionStart =>
    if s.phase = InterviewPhase.IDLE then ⟨InterviewPhase.GREETING, 0⟩ else s
  | OrchEvent.advanceSignal =>
    if s.phase = InterviewPhase.GREETING then ⟨InterviewPhase.TECHNICAL, 0⟩ else s
  | OrchEvent.scoringComplete =>
    if s.phase = InterviewPhase.EVALUATION then ⟨InterviewPhase.COMPLETED, 0⟩ else s
  | OrchEvent.candidateTurn =>
    match s.phase with
    | InterviewPhase.GREETING =>
      if greetingCap ≤ s.exchanges + 1 then ⟨InterviewPhase.TECHNICAL, 0⟩
      else { s with exchanges := s.exchanges + 1 }
    | InterviewPhase.TECHNICAL =>
      if technicalCap ≤ s.exchanges + 1 then ⟨InterviewPhase.EVALUATION, 0⟩
      else { s with exchanges := s.exchanges + 1 }
    | _ => s

/-- The phases newly entered while processing the events, in order. -/
def phaseTrace : OrchState → List OrchEvent → List InterviewPhase
  | _, [] => []
  | s, e :: es =>
    let s2 := orchStep s e
    if s2.phase = s.phase then phaseTrace s2 es else s2.phase :: phaseTrace s2 es

/-- All phases a session visits: the starting phase followed by each
newly entered one. -/
def visitedPhases (s : OrchState) (es : List OrchEvent) : List InterviewPhase :=
  s.phase :: phaseTrace s es

/-! Auxiliary definitions for the statements below. -/

/-- Buffer values reachable from `a` by merge-heuristic steps: the sense
in which a later buffer "contains" an earlier one. -/
inductive MergeReaches (a : String) : String → Prop where
  | refl : MergeReaches a a
  | step (b t : String) : MergeReaches a b → MergeReaches a (mergeTranscript b t)

/-- Fold a sequence of timed transcription events into the state. -/
def pttRun (s : AvatarState) (evs : List (Nat × String)) : AvatarState :=
  evs.foldl (fun st p => userTranscription p.1 p.2 st) s

/-- A trace in which the avatar finishes one utterance and starts the
next 200 ms later, still inside the 500 ms grace window of the first,
and a recognition event arrives during the second utterance. -/
def c1Trace : List (Nat × AvatarEvent) :=
  [(0, AvatarEvent.speakStarted),
   (100, AvatarEvent.speakEnded),
   (300, AvatarEvent.speakStarted),
   (700, AvatarEvent.userT "i have five years")]

/-- A push-to-talk capture with a non-empty buffer. -/
def c3Avatar : AvatarState :=
  { initAvatar true with currentTranscript := "i have five years" }

/-- A finalize-ready state with surrounding whitespace in the buffer. -/
def c4Avatar : AvatarState :=
  { initAvatar true with currentTranscript := " i have five years " }

/-- A released push-to-talk episode with a partial buffer. -/
def c5Avatar : AvatarState :=
  { initAvatar true with currentTranscript := "i have", pttReleased := true }

/-- A state whose finalize countdown fires while the avatar speaks. -/
def c8Avatar : AvatarState :=
  { initAvatar true with currentTranscript := "i have five years", isSpeaking := true }

/-- A channel with no transport. -/
def c6Chan : ChannelState :=
  ⟨"ws://localhost:8000/ws", some "abc", none, false, none⟩

/-- A disconnected channel whose transport was created for session
"abc" (captured by its handlers) and whose current identifier has since
changed to "xyz-2", with the reconnect scheduled by the close pending. -/
def c7Chan : ChannelState :=
  ⟨"ws://localhost:8000/ws", some "xyz-2",
   some ⟨"ws://localhost:8000/ws/abc", WsReadyState.wsClosed, []⟩, false,
   some ⟨4000, some "abc"⟩⟩

/-- A connected channel for session "abc" with a pending reconnect
timer. -/
def c9Chan : ChannelState :=
  ⟨"ws://localhost:8000/ws", some "abc",
   some ⟨"ws://localhost:8000/ws/abc", WsReadyState.wsOpen, []⟩, true,
   some ⟨9000, some "abc"⟩⟩

/-! Helper lemmas shared by the claim theorems. -/

theorem strTrim_empty : strTrim "" = "" := rfl

theorem strLength_zero (tr : String) (h : tr = "") : tr.length = 0 := by
  rw [h]; rfl

theorem strLength_append (a b : String) : (a ++ b).length = a.length + b.length :=
  String.length_append a b

/-- A merge step never shortens the buffer: appending adds characters
and a replacement happens only when the new text is strictly longer. -/
theorem mergeTranscript_le_length (current text : String) :
    current.length ≤ (mergeTranscript current text).length := by
  rw [mergeTranscript]
  split_ifs with h1 h2
  · rw [strLength_append, strLength_append]
    omega
  · omega
  · exact le_refl _

theorem mergeReaches_of_eq (a t b c : String) (hb : b = mergeTranscript a t)
    (h : MergeReaches b c) : MergeReaches a c := by
  subst hb
  induction h with
  | refl => exact MergeReaches.step a t MergeReaches.refl
  | step y u _ ih => exact MergeReaches.step y u ih

theorem userTranscription_keeps_ptt (now : Nat) (text : String) (s : AvatarState) :
    (userTranscription now text s).pushToTalkEnabled = s.pushToTalkEnabled := by
  by_cases h1 : s.isSpeaking = true
  · simp [userTranscription, h1]
  · by_cases h2 : text = "" ∨ (strTrim text).length < 2
    · simp [userTranscription, h1, h2]
    · by_cases h3 : s.pushToTalkEnabled = true
      · by_cases hr : s.pttReleased = true <;>
          simp [userTranscription, h1, h2, h3, hr]
      · by_cases hg : now - s.lastTranscriptTime > 5000 <;>
          simp [userTranscription, h1, h2, h3, hg]

/-- In push-to-talk mode every event leaves the buffer unchanged or
replaces it with a merge of itself and the event text. -/
theorem userTranscription_buffer_step (now : Nat) (text : String) (s : AvatarState)
    (hptt : s.pushToTalkEnabled = true) :
    (userTranscription now text s).currentTranscript = s.currentTranscript ∨
    (userTranscription now text s).currentTranscript
      = mergeTranscript s.currentTranscript text := by
  by_cases h1 : s.isSpeaking = true
  · simp [userTranscription, h1]
  · by_cases h2 : text = "" ∨ (strTrim text).length < 2
    · simp [userTranscription, h1, h2]
    · by_cases hr : s.pttReleased = true <;>
        simp [userTranscription, h1, h2, hptt, hr]

/-- `sendTranscript` bases all its decisions on the buffer, the speaking
flag and the last-sent marker; a different stored timeout changes
neither its output nor those fields of its result. -/
theorem sendTranscript_ignores_timeout (m : Nat) (s : AvatarState) (x : Option SendTimer) :
    ((sendTranscript m { s with sendTimeout := x }).2 = (sendTranscript m s).2) ∧
    ((sendTranscript m { s with sendTimeout := x }).1.currentTranscript
      = (sendTranscript m s).1.currentTranscript) ∧
    ((sendTranscript m { s with sendTimeout := x }).1.lastSentTranscript
      = (sendTranscript m s).1.lastSentTranscript) := by
  by_cases h1 : strTrim s.currentTranscript = "" ∨ (strTrim s.currentTranscript).length < 3
  · simp [sendTranscript, h1]
  · by_cases h2 : s.isSpeaking = true
    · simp [sendTranscript, h1, h2]
    · by_cases h3 : strTrim s.currentTranscript = s.lastSentTranscript
      · simp [sendTranscript, h1, h2, h3]
      · simp [sendTranscript, h1, h2, h3]

theorem orchStep_phase (s : OrchState) (e : OrchEvent) :
    (orchStep s e).phase = s.phase ∨
    ((orchStep s e).phase = nextPhase s.phase ∧ s.phase ≠ InterviewPhase.COMPLETED) := by
  cases e <;> cases hp : s.phase <;>
    simp [orchStep, nextPhase, hp] <;> split_ifs <;> simp [nextPhase]

theorem phasesAfter_cons (p : InterviewPhase) (h : p ≠ InterviewPhase.COMPLETED) :
    phasesAfter p = nextPhase p :: phasesAfter (nextPhase p) := by
  cases p
  · rfl
  · rfl
  · rfl
  · rfl
  · exact absurd rfl h

theorem phaseTrace_prefix (es : List OrchEvent) : ∀ s : OrchState,
    ∃ rest, phaseTrace s es ++ rest = phasesAfter s.phase := by
  induction es with
  | nil => exact fun s => ⟨phasesAfter s.phase, rfl⟩
  | cons e es ih =>
    intro s
    by_cases hph : (orchStep s e).phase = s.phase
    · obtain ⟨r, hr⟩ := ih (orchStep s e)
      rw [hph] at hr
      exact ⟨r, by simp [phaseTrace, hph, hr]⟩
    · obtain ⟨hnext, hnc⟩ := (orchStep_phase s e).resolve_left hph
      obtain ⟨r, hr⟩ := ih (orchStep s e)
      rw [hnext] at hr
      refine ⟨r, ?_⟩
      rw [phasesAfter_cons s.phase hnc]
      have hne : ¬ nextPhase s.phase = s.phase := hnext ▸ hph
      simp [phaseTrace, hne, hnext, hr]

theorem flushPending_eq_filter (l : List String) :
    flushPending l = l.filter (fun u => !(u == "")) := by
  induction l with
  | nil => rfl
  | cons t rest ih =>
    by_cases h : t = ""
    · simp [flushPending, h, ih]
    · simp [flushPending, h, ih]

/-! The claim theorems. -/

/-- Claim C1 (code bug): the suppression of recognition events during
system speech is violated in `c1Trace`.  The avatar is audibly speaking
at t = 700 (it started a second utterance at t = 300 and never ended
it), yet the stale 500 ms clear-timer armed by the first utterance end
at t = 100 fires at t = 600, so the event at t = 700 is accepted and a
`Turn` is finalized from it — the claim requires it to be discarded. -/
theorem suppression_violated_by_stale_clear_timer :
    audiblySpeakingAt c1Trace 700 = true ∧
    (runSession (initAvatar false) c1Trace 4000).2 = ["i have five years"] := by
  decide

/-- Claim C2: every session visits a prefix of
IDLE, GREETING, TECHNICAL, EVALUATION, COMPLETED — and each orchestrator
step keeps the phase or moves to its immediate successor, so no phase is
skipped, repeated or revisited backwards.  (The orchestrator is modelled
from the spec; its Python source is not part of the frontend tree.) -/
theorem phase_visits_monotone (es : List OrchEvent) :
    (∃ rest, visitedPhases ⟨InterviewPhase.IDLE, 0⟩ es ++ rest = phaseOrder) ∧
    ∀ (s : OrchState) (e : OrchEvent),
      (orchStep s e).phase = s.phase ∨ (orchStep s e).phase = nextPhase s.phase := by
  constructor
  · obtain ⟨r, hr⟩ := phaseTrace_prefix es ⟨InterviewPhase.IDLE, 0⟩
    exact ⟨r, by simp [visitedPhases, phaseOrder, phasesAfter, hr]⟩
  · intro s e
    rcases orchStep_phase s e with h | ⟨h, _⟩
    · exact Or.inl h
    · exact Or.inr h

/-- Claim C3: in push-to-talk mode an accepted event merges into the
buffer by the heuristic: if the text does not case-insensitively start
with the first 20 characters of the non-empty buffer it is appended with
a separating space; otherwise the buffer becomes the text exactly when
the text is strictly longer, and is kept otherwise. -/
theorem ptt_merge_heuristic (now : Nat) (text : String) (s : AvatarState)
    (hsp : s.isSpeaking = false) (hptt : s.pushToTalkEnabled = true)
    (hlen : 2 ≤ (strTrim text).length) (hB : s.currentTranscript ≠ "") :
    (userTranscription now text s).currentTranscript = mergeTranscript s.currentTranscript text ∧
    (strStartsWith (strToLower text) (strTake (strToLower s.currentTranscript) 20) = false →
      mergeTranscript s.currentTranscript text = s.currentTranscript ++ " " ++ text) ∧
    (strStartsWith (strToLower text) (strTake (strToLower s.currentTranscript) 20) = true →
      s.currentTranscript.length < text.length →
      mergeTranscript s.currentTranscript text = text) ∧
    (strStartsWith (strToLower text) (strTake (strToLower s.currentTranscript) 20) = true →
      ¬ s.currentTranscript.length < text.length →
      mergeTranscript s.currentTranscript text = s.currentTranscript) := by
  have hshort : ¬ (text = "" ∨ (strTrim text).length < 2) := by
    rintro (h | h)
    · rw [h, strTrim_empty] at hlen
      simp at hlen
    · omega
  refine ⟨?_, ?_, ?_, ?_⟩
  · simp [userTranscription, hsp, hptt, if_neg hshort]
    split <;> rfl
  · intro hseg
    simp [mergeTranscript, hB, hseg]
  · intro hseg hlong
    simp [mergeTranscript, hB, hseg, hlong]
  · intro hseg hlong
    simp [mergeTranscript, hB, hseg, hlong]

theorem ptt_merge_heuristic_witness :
    c3Avatar.isSpeaking = false ∧
    c3Avatar.pushToTalkEnabled = true ∧
    2 ≤ (strTrim "of experience with python").length ∧
    c3Avatar.currentTranscript ≠ "" ∧
    ((userTranscription 1000 "of experience with python" c3Avatar).currentTranscript
        = mergeTranscript c3Avatar.currentTranscript "of experience with python" ∧
      (strStartsWith (strToLower "of experience with python")
          (strTake (strToLower c3Avatar.currentTranscript) 20) = false →
        mergeTranscript c3Avatar.currentTranscript "of experience with python"
          = c3Avatar.currentTranscript ++ " " ++ "of experience with python") ∧
      (strStartsWith (strToLower "of experience with python")
          (strTake (strToLower c3Avatar.currentTranscript) 20) = true →
        c3Avatar.currentTranscript.length < ("of experience with python").length →
        mergeTranscript c3Avatar.currentTranscript "of experience with python"
          = "of experience with python") ∧
      (strStartsWith (strToLower "of experience with python")
          (strTake (strToLower c3Avatar.currentTranscript) 20) = true →
        ¬ c3Avatar.currentTranscript.length < ("of experience with python").length →
        mergeTranscript c3Avatar.currentTranscript "of experience with python"
          = c3Avatar.currentTranscript)) :=
  ⟨by decide, by decide, by decide, by decide,
   ptt_merge_heuristic 1000 "of experience with python" c3Avatar (by decide) (by decide)
     (by decide) (by decide)⟩

/-- Claim C4: finalizing trims the buffer, discards it without emitting
when short or identical to the last finalized text, and otherwise emits
it exactly once, records it and clears the buffer; after an emission no
later finalize of the episode can emit the same text again. -/
theorem finalize_at_most_once (now : Nat) (s : AvatarState)
    (hsp : s.isSpeaking = false) :
    ((strTrim s.currentTranscript).length < 3 →
      sendTranscript now s = ({ s with currentTranscript := "" }, none)) ∧
    (3 ≤ (strTrim s.currentTranscript).length →
      strTrim s.currentTranscript = s.lastSentTranscript →
      sendTranscript now s = ({ s with currentTranscript := "" }, none)) ∧
    (3 ≤ (strTrim s.currentTranscript).length →
      strTrim s.currentTranscript ≠ s.lastSentTranscript →
      sendTranscript now s
        = ({ s with lastSentTranscript := strTrim s.currentTranscript, currentTranscript := "" },
           some (strTrim s.currentTranscript))) ∧
    (∀ T, (sendTranscript now s).2 = some T →
      (sendTranscript now s).1.lastSentTranscript = T ∧
      ∀ b now2,
        (sendTranscript now2 { (sendTranscript now s).1 with currentTranscript := b }).2
          ≠ some T) := by
  refine ⟨?_, ?_, ?_, ?_⟩
  · intro h3
    simp [sendTranscript, h3]
  · intro h3 hdup
    have hc : ¬ (strTrim s.currentTranscript = "" ∨ (strTrim s.currentTranscript).length < 3) := by
      rintro (h | h)
      · have := strLength_zero _ h
        omega
      · omega
    simp [sendTranscript, hc, hsp, hdup]
  · intro h3 hdup
    have hc : ¬ (strTrim s.currentTranscript = "" ∨ (strTrim s.currentTranscript).length < 3) := by
      rintro (h | h)
      · have := strLength_zero _ h
        omega
      · omega
    simp [sendTranscript, hc, hsp, hdup]
  · intro T hT
    by_cases h1 : strTrim s.currentTranscript = "" ∨ (strTrim s.currentTranscript).length < 3
    · simp [sendTranscript, h1] at hT
    · by_cases h2 : strTrim s.currentTranscript = s.lastSentTranscript
      · simp [sendTranscript, h1, hsp, h2] at hT
      · have hres : sendTranscript now s
            = ({ s with lastSentTranscript := strTrim s.currentTranscript,
                        currentTranscript := "" },
               some (strTrim s.currentTranscript)) := by
          simp [sendTranscript, h1, hsp, h2]
        have hT2 : T = strTrim s.currentTranscript := by
          rw [hres] at hT
          exact (Option.some_inj.mp hT).symm
        rw [hres]
        refine ⟨hT2.symm, ?_⟩
        intro b now2 hbad
        rw [hT2] at hbad
        by_cases hb1 : strTrim b = "" ∨ (strTrim b).length < 3
        · simp [sendTranscript, hb1] at hbad
        · by_cases hb2 : strTrim b = strTrim s.currentTranscript
          · simp [sendTranscript, hb1, hsp, hb2] at hbad
          · simp [sendTranscript, hb1, hsp, hb2] at hbad

theorem finalize_at_most_once_witness :
    c4Avatar.isSpeaking = false ∧
    sendTranscript 0 c4Avatar
      = ({ c4Avatar with lastSentTranscript := "i have five years", currentTranscript := "" },
         some "i have five years") ∧
    (sendTranscript 1
        { (sendTranscript 0 c4Avatar).1 with currentTranscript := " i have five years " }).2
      ≠ some "i have five years" := by
  have h := finalize_at_most_once 0 c4Avatar (by decide)
  refine ⟨by decide, ?_, ?_⟩
  · exact (h.2.2.1 (by decide) (by decide)).trans (by decide)
  · have h4 := h.2.2.2 "i have five years" (by decide)
    exact h4.2 " i have five years " 1

/-- Claim C5: within one push-to-talk episode the buffer never regresses
across accepted events — every later buffer is at least as long and is
reachable from the earlier one by merge-heuristic steps — and whatever
finalize eventually emits is exactly the trim of that final buffer. -/
theorem ptt_no_regression (s : AvatarState) (evs : List (Nat × String))
    (hptt : s.pushToTalkEnabled = true) :
    s.currentTranscript.length ≤ (pttRun s evs).currentTranscript.length ∧
    MergeReaches s.currentTranscript (pttRun s evs).currentTranscript ∧
    (∀ now T, (sendTranscript now (pttRun s evs)).2 = some T →
      T = strTrim (pttRun s evs).currentTranscript) := by
  have hemit : ∀ (st : AvatarState) (now : Nat) (T : String),
      (sendTranscript now st).2 = some T → T = strTrim st.currentTranscript := by
    intro st now T hT
    by_cases h1 : strTrim st.currentTranscript = "" ∨ (strTrim st.currentTranscript).length < 3
    · simp [sendTranscript, h1] at hT
    · by_cases h2 : st.isSpeaking = true
      · simp [sendTranscript, h1, h2] at hT
      · by_cases h3 : strTrim st.currentTranscript = st.lastSentTranscript
        · simp [sendTranscript, h1, h2, h3] at hT
        · simp [sendTranscript, h1, h2, h3] at hT
          exact hT.symm
  induction evs generalizing s with
  | nil => exact ⟨le_refl _, MergeReaches.refl, fun now T h => hemit s now T h⟩
  | cons p rest ih =>
    have hstep : pttRun s (p :: rest) = pttRun (userTranscription p.1 p.2 s) rest := rfl
    have hptt1 : (userTranscription p.1 p.2 s).pushToTalkEnabled = true := by
      rw [userTranscription_keeps_ptt]
      exact hptt
    have h := ih (userTranscription p.1 p.2 s) hptt1
    rw [hstep]
    rcases userTranscription_buffer_step p.1 p.2 s hptt with hsame | hmerge
    · exact ⟨hsame ▸ h.1, hsame ▸ h.2.1, h.2.2⟩
    · refine ⟨?_, ?_, h.2.2⟩
      · calc s.currentTranscript.length
            ≤ (mergeTranscript s.currentTranscript p.2).length :=
              mergeTranscript_le_length _ _
          _ = (userTranscription p.1 p.2 s).currentTranscript.length := by rw [hmerge]
          _ ≤ _ := h.1
      · exact mergeReaches_of_eq s.currentTranscript p.2 _ _ hmerge h.2.1

theorem ptt_no_regression_witness :
    c5Avatar.pushToTalkEnabled = true ∧
    (c5Avatar.currentTranscript.length
        ≤ (pttRun c5Avatar [(2500, "i have five years")]).currentTranscript.length ∧
      MergeReaches c5Avatar.currentTranscript
        (pttRun c5Avatar [(2500, "i have five years")]).currentTranscript ∧
      (∀ now T, (sendTranscript now (pttRun c5Avatar [(2500, "i have five years")])).2 = some T →
        T = strTrim (pttRun c5Avatar [(2500, "i have five years")]).currentTranscript)) :=
  ⟨by decide, ptt_no_regression c5Avatar [(2500, "i have five years")] (by decide)⟩

/-- Claim C6: sending while the transport is not open transmits nothing,
queues nothing and leaves the channel state untouched; the caller only
gets the logged-warning outcome. -/
theorem send_not_connected_noop (s : ChannelState) (msg : String)
    (h : channelOpen s = false) :
    send msg s = (s, SendResult.droppedNotConnected) := by
  cases hw : s.ws with
  | none => simp [send, hw]
  | some w =>
    have h2 : (w.readyState == WsReadyState.wsOpen) = false := by
      simpa [channelOpen, hw] using h
    simp [send, hw, h2]

theorem send_not_connected_noop_witness :
    channelOpen c6Chan = false ∧
    send "ping" c6Chan = (c6Chan, SendResult.droppedNotConnected) :=
  ⟨by decide, send_not_connected_noop c6Chan "ping" (by decide)⟩

/-- Claim C7 counterexample: the channel's current session identifier
is "xyz-2", yet the reconnect scheduled by the close of the socket that
was created for "abc" connects to ".../abc" — the attempt reuses the
identifier captured at original call time by the handler's closure, not
the last known one as the claim states. -/
theorem reconnect_uses_captured_identifier :
    c7Chan.sessionId = some "xyz-2" ∧
    (fireReconnect 5000
        (onClose 1000 (some "abc") { c7Chan with reconnectTimeout := none }).1).ws
      = some ⟨"ws://localhost:8000/ws/abc", WsReadyState.connecting, []⟩ ∧
    (fireReconnect 5000
        (onClose 1000 (some "abc") { c7Chan with reconnectTimeout := none }).1).ws
      ≠ some ⟨"ws://localhost:8000/ws/xyz-2", WsReadyState.connecting, []⟩ := by
  decide

/-- Claim C7 (amended): a transport closure marks the channel
disconnected, notifies the caller once, and schedules exactly one
reconnection 3000 ms out; the scheduled callback is invoked with no
identifier supplied, and when it fires it connects using the session
identifier captured by the closed socket's closure — the identifier of
the render that created the socket — regardless of the channel's
current identifier at fire time. -/
theorem onClose_schedules_reconnect (s : ChannelState) (t : Nat) (captured : Option String) :
    (onClose t captured s).1.isConnected = false ∧
    (onClose t captured s).2 = [ChannelNotice.disconnected] ∧
    (onClose t captured s).1.reconnectTimeout = some ⟨t + 3000, captured⟩ ∧
    (∀ s2 : ChannelState, ∀ t2 sid, s2.reconnectTimeout = some ⟨t + 3000, some sid⟩ →
      t + 3000 ≤ t2 → channelOpen s2 = false →
      fireReconnect t2 s2
        = { s2 with reconnectTimeout := none
                    ws := some ⟨s2.url ++ "/" ++ sid, WsReadyState.connecting, []⟩ }) := by
  refine ⟨rfl, rfl, rfl, ?_⟩
  intro s2 t2 sid hrt hle hop
  cases hws : s2.ws with
  | none => simp [fireReconnect, hrt, hle, connectWith, channelOpen, hws]
  | some w =>
    have h2 : (w.readyState == WsReadyState.wsOpen) = false := by
      simpa [channelOpen, hws] using hop
    simp [fireReconnect, hrt, hle, connectWith, channelOpen, hws, h2]

theorem onClose_schedules_reconnect_witness :
    (onClose 1000 (some "abc") c6Chan).1.isConnected = false ∧
    (onClose 1000 (some "abc") c6Chan).2 = [ChannelNotice.disconnected] ∧
    (onClose 1000 (some "abc") c6Chan).1.reconnectTimeout = some ⟨4000, some "abc"⟩ ∧
    fireReconnect 5000 c7Chan
      = { c7Chan with
          reconnectTimeout := none
          ws := some ⟨"ws://localhost:8000/ws" ++ "/" ++ "abc", WsReadyState.connecting, []⟩ } := by
  have h := onClose_schedules_reconnect c6Chan 1000 (some "abc")
  exact ⟨h.1, h.2.1, h.2.2.1,
    h.2.2.2 c7Chan 5000 "abc" (by decide) (by decide) (by decide)⟩

/-- Claim C8: when the finalize countdown fires during system speech the
(non-trivial) buffer is not emitted and not lost — the countdown is
re-armed, as often as needed while speech continues, and once the
speaking flag clears the finalize acts exactly as it would have on the
original state. -/
theorem finalize_deferred_while_speaking (now : Nat) (s : AvatarState)
    (hsp : s.isSpeaking = true) (hlen : 3 ≤ (strTrim s.currentTranscript).length) :
    sendTranscript now s = ({ s with sendTimeout := some ⟨now + 1000, false⟩ }, none) ∧
    (∀ m, sendTranscript m (sendTranscript now s).1
        = ({ s with sendTimeout := some ⟨m + 1000, false⟩ }, none)) ∧
    (∀ m, (sendTranscript m { (sendTranscript now s).1 with isSpeaking := false }).2
        = (sendTranscript m { s with isSpeaking := false }).2 ∧
      (sendTranscript m { (sendTranscript now s).1 with isSpeaking := false }).1.currentTranscript
        = (sendTranscript m { s with isSpeaking := false }).1.currentTranscript ∧
      (sendTranscript m
          { (sendTranscript now s).1 with isSpeaking := false }).1.lastSentTranscript
        = (sendTranscript m { s with isSpeaking := false }).1.lastSentTranscript) := by
  have hc : ¬ (strTrim s.currentTranscript = "" ∨ (strTrim s.currentTranscript).length < 3) := by
    rintro (h | h)
    · have := strLength_zero _ h
      omega
    · omega
  have hA : sendTranscript now s = ({ s with sendTimeout := some ⟨now + 1000, false⟩ }, none) := by
    simp [sendTranscript, hc, hsp]
  refine ⟨hA, ?_, ?_⟩
  · intro m
    rw [hA]
    simp [sendTranscript, hc, hsp]
  · intro m
    rw [hA]
    exact sendTranscript_ignores_timeout m { s with isSpeaking := false }
      (some ⟨now + 1000, false⟩)

theorem finalize_deferred_while_speaking_witness :
    c8Avatar.isSpeaking = true ∧
    3 ≤ (strTrim c8Avatar.currentTranscript).length ∧
    sendTranscript 0 c8Avatar = ({ c8Avatar with sendTimeout := some ⟨1000, false⟩ }, none) ∧
    sendTranscript 1500 (sendTranscript 0 c8Avatar).1
      = ({ c8Avatar with sendTimeout := some ⟨2500, false⟩ }, none) ∧
    (sendTranscript 3000 { (sendTranscript 0 c8Avatar).1 with isSpeaking := false }).2
      = (sendTranscript 3000 { c8Avatar with isSpeaking := false }).2 := by
  have h := finalize_deferred_while_speaking 0 c8Avatar (by decide) (by decide)
  exact ⟨by decide, by decide, h.1.trans (by decide), (h.2.1 1500).trans (by decide),
    (h.2.2 3000).1⟩

/-- Claim C9 counterexample: `disconnect()` does not clear the stored
session identifier, and the transport's close event (fired by the very
close that `disconnect` requested) schedules an automatic reconnection
that succeeds with that identifier — a stale auto-reconnect occurs. -/
theorem disconnect_not_clearing_sessionId :
    (disconnect c9Chan).sessionId = some "abc" ∧
    (fireReconnect 5000 (onClose 1000 (some "abc") (disconnect c9Chan)).1).ws
      = some ⟨"ws://localhost:8000/ws/abc", WsReadyState.connecting, []⟩ := by
  decide

/-- Claim C9 (amended): `disconnect()` cancels any pending reconnection
timer, closes and drops the transport and marks the channel
disconnected, but leaves the session identifier untouched. -/
theorem disconnect_cancels_timer_closes_transport (s : ChannelState) :
    disconnect s = { s with reconnectTimeout := none, ws := none, isConnected := false } ∧
    (disconnect s).sessionId = s.sessionId :=
  ⟨rfl, rfl⟩

/-- Claim C10 counterexample: an empty string passed to `speak` before
readiness is enqueued, but the drain loop's truthiness check skips it,
so the queued texts are not all spoken. -/
theorem speak_queue_drops_empty_text :
    (speak "" ⟨true, false, []⟩).1.pendingSpeak = [""] ∧
    (onStreamReady ⟨true, false, [""]⟩).2 = [] := by
  decide

/-- Claim C10 (amended): a text passed to `speak` before readiness is
appended to the queue and not spoken yet; when the stream becomes ready
the queued non-empty texts are spoken in enqueue order (empty strings
are discarded) and the queue is left empty. -/
theorem speak_queue_fifo (s : SpeakState) (text : String)
    (h : s.hasSession = false ∨ s.isReady = false) :
    speak text s = ({ s with pendingSpeak := s.pendingSpeak ++ [text] }, none) ∧
    onStreamReady (speak text s).1
      = ({ s with isReady := true, pendingSpeak := [] },
         (s.pendingSpeak ++ [text]).filter (fun u => !(u == ""))) := by
  have h1 : speak text s = ({ s with pendingSpeak := s.pendingSpeak ++ [text] }, none) := by
    rcases h with h | h
    · simp [speak, h]
    · by_cases h0 : s.hasSession = false
      · simp [speak, h0]
      · simp [speak, h0, h]
  refine ⟨h1, ?_⟩
  rw [h1]
  simp [onStreamReady, flushPending_eq_filter]

theorem speak_queue_fifo_witness :
    ((⟨true, false, ["hi there", "", "how are you"]⟩ : SpeakState).isReady = false) ∧
    speak "welcome" (⟨true, false, ["hi there", "", "how are you"]⟩ : SpeakState)
      = (⟨true, false, ["hi there", "", "how are you", "welcome"]⟩, none) ∧
    onStreamReady
        (speak "welcome" (⟨true, false, ["hi there", "", "how are you"]⟩ : SpeakState)).1
      = (⟨true, true, []⟩, ["hi there", "how are you", "welcome"]) := by
  have h := speak_queue_fifo (⟨true, false, ["hi there", "", "how are you"]⟩ : SpeakState)
    "welcome" (Or.inr rfl)
  refine ⟨rfl, ?_, ?_⟩
  · rw [h.1]
    rfl
  · rw [h.2]
    decide

end Rizma
